import Mathlib

/-!
Verification of the rift autonomous incident-remediation core.

Shallow embedding of the orchestration core of the repository:
  * `backend/models/incident.py`              — data model
  * `backend/agents/safety_validator.py`      — `SafetyValidator`
  * `backend/agents/remediation_agent.py`     — `RemediationAgent.execute_remediation`
  * `backend/orchestrator/coordinator.py`     — `Coordinator.handle_incident_workflow`
                                                and the autonomous loop body

Modelling conventions:
  * Python `float` is modelled as `Rat` (all policy constants are exact decimals).
  * External collaborators (the Gradient AI agents, the Terraform MCP, the
    DigitalOcean MCP, the metrics source) are modelled as an explicit
    environment record holding the structured results their calls return;
    an exception raised by a collaborator and converted by the source into a
    structured failure is modelled by the corresponding failure field.
  * Fields of the Python models that are consumed only by logging
    (timestamps, uuids generated by `default_factory`, severity/metric enum
    values, wall-clock durations) are elided or fixed to a default; no claim
    below depends on them.
-/

/-- Structural test that one character list starts with another. -/
def charsStartWith : List Char → List Char → Bool
  | [], _ => true
  | _ :: _, [] => false
  | a :: pat, b :: s => a == b && charsStartWith pat s

/-- Structural substring occurrence test on character lists. -/
def charsContain (pat : List Char) : List Char → Bool
  | [] => charsStartWith pat []
  | b :: s => charsStartWith pat (b :: s) || charsContain pat s

/-- Substring test: Python `pat in s`. -/
def strContains (s pat : String) : Bool :=
  charsContain pat.data s.data

/-- Python `str.lower` (ASCII-adequate for the strings the core handles). -/
def strLower (s : String) : String :=
  ⟨s.data.map Char.toLower⟩

/-- `IncidentStatus` enum of `models/incident.py`. -/
inductive IncidentStatus
  | detected
  | diagnosing
  | diagnosed
  | remediating
  | resolved
  | failed
deriving DecidableEq, Repr

/-- `RemediationAction` enum of `models/incident.py`. -/
inductive RemediationAction
  | resize_droplet
  | add_volume
  | restart_service
  | update_firewall
  | clean_disk
  | scale_kubernetes
  | update_load_balancer
deriving DecidableEq, Repr

/-- The `.value` string of each `RemediationAction` member. -/
def RemediationAction.value : RemediationAction → String
  | .resize_droplet => "resize_droplet"
  | .add_volume => "add_volume"
  | .restart_service => "restart_service"
  | .update_firewall => "update_firewall"
  | .clean_disk => "clean_disk"
  | .scale_kubernetes => "scale_kubernetes"
  | .update_load_balancer => "update_load_balancer"

/-- `RemediationStatus` enum of `models/incident.py`. -/
inductive RemediationStatus
  | pending
  | validating
  | planning
  | executing
  | verifying
  | success
  | failed
  | rolled_back
deriving DecidableEq, Repr

/-- A value in the `parameters : Dict[str, Any]` bag of a plan.  Only numeric
values are ever read by the core (`size_gb` in the cost table); string values
occur as opaque payload. -/
inductive ParamValue
  | num (q : Rat)
  | str (s : String)
deriving DecidableEq, Repr

/-- The `rollback_plan : Optional[Dict[str, Any]]` descriptor.  The validator
consults only: presence of the `description` and `steps` keys, and the list
stored under `steps` (`.get("steps", [])` defaults to the empty list). -/
structure RollbackDescriptor where
  has_description_key : Bool
  has_steps_key : Bool
  steps : List String
deriving DecidableEq, Repr

/-- `Incident` of `models/incident.py`.  `metric`, `severity` and
`resource_type` are carried as their `.value` strings: the orchestration core
only ever logs them. -/
structure Incident where
  id : String
  resource_id : String
  resource_name : String
  metric : String
  current_value : Rat
  threshold_value : Rat
  severity : String
  status : IncidentStatus
  description : String
deriving DecidableEq, Repr

/-- `Diagnosis` of `models/incident.py` (fields the core consults). -/
structure Diagnosis where
  id : String
  incident_id : String
  root_cause : String
  confidence : Rat
  recommendations : List String
  estimated_cost : Option Rat
  estimated_duration : Option Nat
deriving DecidableEq, Repr

/-- `RemediationPlan` of `models/incident.py`. -/
structure RemediationPlan where
  id : String
  diagnosis_id : String
  incident_id : String
  action : RemediationAction
  action_description : String
  terraform_config : Option String
  parameters : List (String × ParamValue)
  safety_checks : List String
  rollback_plan : Option RollbackDescriptor
  requires_approval : Bool
  estimated_cost : Option Rat
  estimated_duration : Option Nat
deriving DecidableEq, Repr

/-- `ValidationResult` (`agents/safety_validator.py`).  The `metadata` dict
holds `plan_id`, `action` and `estimated_cost`. -/
structure ValidationResult where
  is_safe : Bool
  passed_checks : List String
  failed_checks : List String
  warnings : List String
  requires_approval : Bool
  meta_plan_id : String
  meta_action : String
  meta_estimated_cost : Option Rat
deriving DecidableEq, Repr

/-- `CostEstimate` (`agents/safety_validator.py`). -/
structure CostEstimate where
  one_time_cost : Rat
  monthly_cost : Rat
  total_first_month : Rat
  breakdown : List (String × Rat)
deriving DecidableEq, Repr

/-- The `SafetyValidator` configuration: its auto-approve cost threshold
(class constant `COST_THRESHOLD = 50.0` is the default). -/
structure SafetyValidator where
  auto_approve_threshold : Rat
deriving DecidableEq, Repr

/-- `SafetyValidator.COST_THRESHOLD`. -/
def COST_THRESHOLD : Rat := 50

/-- The validator built with the default threshold. -/
def defaultValidator : SafetyValidator := ⟨COST_THRESHOLD⟩

/-- `SafetyValidator.DESTRUCTIVE_OPERATIONS` (a Python set; iteration order
is irrelevant because it only feeds an existence check). -/
def DESTRUCTIVE_OPERATIONS : List String :=
  ["delete", "destroy", "terminate", "drop", "remove"]

/-- `SafetyValidator.check_destructive_ops`: destructive keyword in the
action name, in the lower-cased Terraform config text (only when a non-empty
config is attached — `if plan.terraform_config:` is a truthiness test), or a
`force`/`destroy` fragment in any parameter key. -/
def check_destructive_ops (plan : RemediationPlan) : Bool :=
  let action_name := strLower plan.action.value
  if DESTRUCTIVE_OPERATIONS.any (fun kw => strContains action_name kw) then
    true
  else
    let cfg := plan.terraform_config.getD ""
    if cfg ≠ "" && DESTRUCTIVE_OPERATIONS.any (fun kw => strContains (strLower cfg) kw) then
      true
    else if !plan.parameters.isEmpty &&
        plan.parameters.any (fun p =>
          strContains (strLower p.1) "force" || strContains (strLower p.1) "destroy") then
      true
    else
      false

/-- `SafetyValidator.verify_rollback_possible`: a rollback descriptor must be
present (Python truthiness also rejects an empty dict, which the key checks
below subsume), carry both required keys, and have a non-empty step list. -/
def verify_rollback_possible (plan : RemediationPlan) : Bool :=
  match plan.rollback_plan with
  | none => false
  | some rb =>
      if !rb.has_description_key || !rb.has_steps_key then false
      else if rb.steps.isEmpty then false
      else true

/-- `SafetyValidator._get_required_params` dispatch table. -/
def get_required_params : RemediationAction → List String
  | .resize_droplet => ["droplet_id", "new_size"]
  | .add_volume => ["volume_name", "size_gb", "region"]
  | .update_firewall => ["firewall_id", "rules"]
  | .restart_service => ["droplet_id", "service_name"]
  | .clean_disk => ["droplet_id", "path"]
  | .scale_kubernetes => ["cluster_id", "node_count"]
  | .update_load_balancer => ["lb_id", "configuration"]

/-- The parameters (in declaration order) of `get_required_params` missing
from the plan's parameter map — `[p for p in required if p not in parameters]`. -/
def missing_params (plan : RemediationPlan) : List String :=
  (get_required_params plan.action).filter
    (fun p => !(List.lookup p plan.parameters).isSome)

/-- `SafetyValidator._validate_terraform_syntax`: non-blank text, a
declarative block marker, both brace kinds present, balanced brace counts. -/
def terraform_syntax_valid (config : String) : Bool :=
  -- `len(config.strip()) == 0` holds exactly when every character is whitespace
  if config = "" || config.data.all Char.isWhitespace then false
  else
    let has_resource := strContains config "resource" || strContains config "data" ||
      strContains config "module"
    let has_opening_brace := config.data.contains '\x7b'
    let has_closing_brace := config.data.contains '\x7d'
    let balanced_braces := config.data.count '\x7b' == config.data.count '\x7d'
    has_resource && has_opening_brace && has_closing_brace && balanced_braces

/-- The numeric `size_gb` parameter, defaulting to `100` when absent
(`plan.parameters.get("size_gb", 100)`).  A non-numeric value at this key
would raise `TypeError` in Python; that branch is unreachable in typed usage
and is given value `0` here. -/
def size_gb_param (plan : RemediationPlan) : Rat :=
  match List.lookup "size_gb" plan.parameters with
  | some (.num q) => q
  | some (.str _) => 0
  | none => 100

/-- `SafetyValidator._calculate_cost` — the action-keyed monthly cost table. -/
def calculate_cost (plan : RemediationPlan) : Rat :=
  match plan.action with
  | .resize_droplet => 12
  | .add_volume => size_gb_param plan * (1 / 10)
  | .update_firewall => 0
  | .scale_kubernetes => 12
  | .update_load_balancer => 12
  | _ => 0

/-- `SafetyValidator._calculate_one_time_cost` — always `0.0` in the source. -/
def calculate_one_time_cost (_plan : RemediationPlan) : Rat := 0

/-- `SafetyValidator.estimate_cost`: declared monthly cost when present,
otherwise the action-keyed table, plus the one-time cost. -/
def estimate_cost (plan : RemediationPlan) : CostEstimate :=
  let monthly_cost :=
    match plan.estimated_cost with
    | some c => c
    | none => calculate_cost plan
  let one_time_cost := calculate_one_time_cost plan
  let total_first_month := one_time_cost + monthly_cost
  let breakdown := [("monthly_recurring", monthly_cost), ("one_time_setup", one_time_cost)]
  let breakdown :=
    match plan.action with
    | .resize_droplet => breakdown ++ [("droplet_size_upgrade", monthly_cost)]
    | .add_volume => breakdown ++ [("volume_storage", monthly_cost)]
    | .update_firewall => breakdown ++ [("firewall_rules", 0)]
    | _ => breakdown
  ⟨one_time_cost, monthly_cost, total_first_month, breakdown⟩

/-- `SafetyValidator.validate_plan` — the six checks in source order.
`is_safe` is `len(failed_checks) == 0`; `requires_approval` starts from the
destructive-operation check (else the plan's own flag) and is forced by the
cost check when a declared estimate exceeds the threshold. -/
def validate_plan (sv : SafetyValidator) (plan : RemediationPlan) : ValidationResult :=
  -- Check 1: rollback plan exists
  let rollback_ok := verify_rollback_possible plan
  let passed1 : List String := if rollback_ok then ["Rollback plan exists and is valid"] else []
  let failed1 : List String := if rollback_ok then [] else ["No valid rollback plan found"]
  let warn1 : List String :=
    if rollback_ok then [] else ["Execution without rollback capability is risky"]
  -- Check 2: destructive operations
  let is_destructive := check_destructive_ops plan
  let warn2 : List String :=
    if is_destructive then ["Plan contains destructive operation: " ++ plan.action.value] else []
  let passed2 : List String :=
    if is_destructive then [] else ["No destructive operations detected"]
  let requires_approval := if is_destructive then true else plan.requires_approval
  -- Check 3: cost estimate (run only when the plan declares one)
  let cost_branch :
      List String × List String × Bool :=
    match plan.estimated_cost with
    | some _ =>
        let cost_check := estimate_cost plan
        if cost_check.total_first_month ≤ sv.auto_approve_threshold then
          (["Cost within auto-approve threshold: $" ++ toString cost_check.total_first_month ++
              " <= $" ++ toString sv.auto_approve_threshold], [], requires_approval)
        else
          ([], ["Cost exceeds auto-approve threshold: $" ++ toString cost_check.total_first_month ++
              " > $" ++ toString sv.auto_approve_threshold], true)
    | none => ([], ["No cost estimate provided"], requires_approval)
  let passed3 := cost_branch.1
  let warn3 := cost_branch.2.1
  let requires_approval := cost_branch.2.2
  -- Check 4: safety checks defined (Python truthiness: non-empty list)
  let checks_ok := !plan.safety_checks.isEmpty
  let passed4 : List String :=
    if checks_ok then
      ["Safety checks defined (" ++ toString plan.safety_checks.length ++ " checks)"]
    else []
  let failed4 : List String := if checks_ok then [] else ["No safety checks defined in plan"]
  -- Check 5: required parameters present
  let missing := missing_params plan
  let passed5 : List String := if missing.isEmpty then ["All required parameters present"] else []
  let failed5 : List String :=
    if missing.isEmpty then []
    else ["Missing required parameters: " ++ String.intercalate ", " missing]
  -- Check 6: Terraform configuration (truthiness: absent or empty is a warning)
  let cfg := plan.terraform_config.getD ""
  let tf_provided := cfg ≠ ""
  let passed6 : List String :=
    if tf_provided && terraform_syntax_valid cfg then ["Terraform configuration syntax valid"]
    else []
  let failed6 : List String :=
    if tf_provided && !terraform_syntax_valid cfg then ["Invalid Terraform configuration syntax"]
    else []
  let warn6 : List String := if tf_provided then [] else ["No Terraform configuration provided"]
  let failed_checks := failed1 ++ failed4 ++ failed5 ++ failed6
  let passed_checks := passed1 ++ passed2 ++ passed3 ++ passed4 ++ passed5 ++ passed6
  let warnings := warn1 ++ warn2 ++ warn3 ++ warn6
  { is_safe := failed_checks.isEmpty
    passed_checks := passed_checks
    failed_checks := failed_checks
    warnings := warnings
    requires_approval := requires_approval
    meta_plan_id := plan.id
    meta_action := plan.action.value
    meta_estimated_cost := plan.estimated_cost }

/-! ## Remediation Executor (`agents/remediation_agent.py`) -/

/-- The structured results the external collaborators return to one run of
`execute_remediation`.  Each field is the value consumed at the matching call
site; a collaborator exception that the source converts into a structured
failure is modelled by the corresponding failure value. -/
structure ExecEnv where
  /-- `generate_terraform` output; the empty string models its failure path. -/
  terraform_config : String
  /-- `terraform_mcp.validate_config(...).valid` -/
  tf_valid : Bool
  /-- `terraform_mcp.validate_config(...).errors` -/
  tf_errors : List String
  /-- `terraform_mcp.plan(...).success` -/
  plan_success : Bool
  /-- `terraform_mcp.plan(...).plan_output` -/
  plan_output : String
  resources_to_add : Nat
  resources_to_change : Nat
  resources_to_destroy : Nat
  /-- `terraform_mcp.apply(...).success` -/
  apply_success : Bool
  /-- `terraform_mcp.apply(...).error_message` -/
  apply_error : Option String
  resources_created : Nat
  resources_updated : Nat
  resources_destroyed : Nat
  /-- whether `terraform_mcp.show_state()` inside `_backup_state` succeeds
  (its exception is swallowed by `_backup_state`) -/
  show_state_ok : Bool
  /-- outcome of the post-apply verification.  The source `verify_fix` is a
  placeholder that delegates to the external Verifier boundary (spec §6) and
  currently always reports `True`; the field keeps the boundary explicit. -/
  verify_ok : Bool
deriving DecidableEq, Repr

/-- `RemediationResult` of `models/incident.py` (the uuid `id` and wall-clock
`duration`/`timestamp` are elided; `metadata` is carried as the shape each
branch of the source builds). -/
inductive ResultMetadata
  | empty
  | pending_approval (passed_checks warnings : List String)
  | applied (created updated destroyed : Nat) (safety_checks_passed : Nat)
deriving DecidableEq, Repr

/-- `RemediationResult` of `models/incident.py`. -/
structure RemediationResult where
  plan_id : String
  incident_id : String
  status : RemediationStatus
  success : Bool
  action_taken : String
  actual_cost : Option Rat
  verification_passed : Bool
  error_message : Option String
  rollback_executed : Bool
  logs : List String
  metadata : ResultMetadata
deriving DecidableEq, Repr

/-- The external-effect call sites of one `execute_remediation` run, in
order.  The trace records which collaborator calls were actually issued; it
adds no behaviour. -/
inductive ExecEvent
  | generate_terraform
  | validate_terraform
  | safety_validation
  | backup_state
  | dry_run
  | apply_changes
  | rollback_attempt (success : Bool)
  | verify_fix (passed : Bool)
  | knowledge_base_update
deriving DecidableEq, Repr

/-- The outcome of one `execute_remediation` run: the returned result, the
agent's `state_backups` keys afterwards, and the call trace. -/
structure ExecOutcome where
  result : RemediationResult
  backups : List String
  trace : List ExecEvent
deriving DecidableEq, Repr

/-- `RemediationAgent._create_failed_result`. -/
def create_failed_result (plan : RemediationPlan) (error_message : String)
    (logs : List String) (rollback_executed : Bool) : RemediationResult :=
  { plan_id := plan.id
    incident_id := plan.incident_id
    status := .failed
    success := false
    action_taken := "Failed: " ++ plan.action.value
    actual_cost := none
    verification_passed := false
    error_message := some error_message
    rollback_executed := rollback_executed
    logs := logs
    metadata := .empty }

/-- `RemediationAgent._backup_state`: on success the snapshot is stored under
the plan id; a `show_state` failure is swallowed (no key is added).  Only key
presence is ever consulted, so the backups are modelled as the key list. -/
def backup_state (env : ExecEnv) (backups : List String) (plan : RemediationPlan) :
    List String :=
  if env.show_state_ok then plan.id :: backups else backups

/-- `RemediationAgent.rollback`: fails (returns `False`) when no snapshot is
stored under the plan id; otherwise replays the declared rollback steps —
which in the source only logs each step — and returns `True`.  Its
`try`/`except` converts any exception into `False`, so the denotation is a
total boolean function. -/
def rollback (backups : List String) (plan : RemediationPlan) : Bool :=
  backups.contains plan.id

/-- `RemediationAgent.execute_remediation`: the linear pipeline
generate → validate → safety-check → (approval gate) → backup → dry-run →
apply → verify, with early-return failures and rollback on apply failure. -/
def execute_remediation (sv : SafetyValidator) (env : ExecEnv) (backups : List String)
    (plan : RemediationPlan) (auto_approve : Bool) : ExecOutcome :=
  let logs : List String := ["Starting remediation: " ++ plan.action.value]
  -- Step 1: generate Terraform configuration
  let logs := logs ++ ["Step 1: Generating Terraform configuration..."]
  let terraform_config := env.terraform_config
  let trace : List ExecEvent := [.generate_terraform]
  if terraform_config = "" then
    ⟨create_failed_result plan "Failed to generate Terraform configuration" logs false,
      backups, trace⟩
  else
  let logs := logs ++
    ["Generated " ++ toString terraform_config.length ++ " bytes of Terraform config"]
  -- Step 2: validate Terraform configuration
  let logs := logs ++ ["Step 2: Validating Terraform configuration..."]
  let trace := trace ++ [.validate_terraform]
  if !env.tf_valid then
    ⟨create_failed_result plan
        ("Terraform validation failed: " ++ String.intercalate ", " env.tf_errors) logs false,
      backups, trace⟩
  else
  let logs := logs ++ ["Terraform configuration is valid"]
  -- Step 3: safety validation
  let logs := logs ++ ["Step 3: Running safety validation..."]
  let safety_result := validate_plan sv plan
  let trace := trace ++ [.safety_validation]
  if !safety_result.is_safe then
    ⟨create_failed_result plan
        ("Safety validation failed: " ++ String.intercalate ", " safety_result.failed_checks)
        logs false,
      backups, trace⟩
  else
  let logs := logs ++
    ["Safety checks passed (" ++ toString safety_result.passed_checks.length ++ " checks)"]
  let logs := logs ++ safety_result.warnings.map (fun w => "Warning: " ++ w)
  -- Approval gate
  if safety_result.requires_approval && !auto_approve then
    ⟨{ plan_id := plan.id
       incident_id := plan.incident_id
       status := .pending
       success := false
       action_taken := "Awaiting approval"
       actual_cost := none
       verification_passed := false
       error_message := some "Approval required"
       rollback_executed := false
       logs := logs ++ ["Approval required before proceeding"]
       metadata := .pending_approval safety_result.passed_checks safety_result.warnings },
      backups, trace⟩
  else
  -- Step 4: back up current state
  let logs := logs ++ ["Step 4: Backing up current state..."]
  let backups := backup_state env backups plan
  let trace := trace ++ [.backup_state]
  let logs := logs ++ ["State backup complete"]
  -- Step 5: dry-run
  let logs := logs ++ ["Step 5: Running Terraform plan (dry-run)..."]
  let trace := trace ++ [.dry_run]
  if !env.plan_success then
    ⟨create_failed_result plan ("Terraform plan failed: " ++ env.plan_output) logs false,
      backups, trace⟩
  else
  let logs := logs ++
    ["Plan: " ++ toString env.resources_to_add ++ " to add, " ++
      toString env.resources_to_change ++ " to change, " ++
      toString env.resources_to_destroy ++ " to destroy"]
  -- Step 6: apply
  let logs := logs ++ ["Step 6: Applying Terraform changes..."]
  let trace := trace ++ [.apply_changes]
  if !env.apply_success then
    let logs := logs ++ ["Apply failed, attempting rollback..."]
    let rollback_success := rollback backups plan
    let trace := trace ++ [.rollback_attempt rollback_success]
    let logs := logs ++ ["Rollback " ++ (if rollback_success then "succeeded" else "failed")]
    ⟨create_failed_result plan (env.apply_error.getD "Apply failed") logs rollback_success,
      backups, trace⟩
  else
  let logs := logs ++
    ["Applied successfully: " ++ toString env.resources_created ++ " created, " ++
      toString env.resources_updated ++ " updated"]
  -- Step 7: verify fix
  let logs := logs ++ ["Step 7: Verifying fix..."]
  let verification_passed := env.verify_ok
  let trace := trace ++ [.verify_fix verification_passed]
  let logs := logs ++
    ["Verification: " ++ (if verification_passed then "PASSED" else "FAILED")]
  let logs :=
    if verification_passed then logs
    else logs ++ ["Fix did not resolve the issue, consider rollback"]
  -- Step 8: update knowledge base
  let logs := logs ++ ["Step 8: Updating knowledge base..."]
  let trace := trace ++ [.knowledge_base_update]
  let logs := logs ++ ["Knowledge base updated"]
  ⟨{ plan_id := plan.id
     incident_id := plan.incident_id
     status := if verification_passed then .success else .verifying
     success := true
     action_taken := plan.action_description
     actual_cost := plan.estimated_cost
     verification_passed := verification_passed
     error_message := none
     rollback_executed := false
     logs := logs
     metadata := .applied env.resources_created env.resources_updated
       env.resources_destroyed safety_result.passed_checks.length },
    backups, trace⟩

/-! ## Coordinator (`orchestrator/coordinator.py`) -/

/-- Association-map assignment, `m[k] = v` on a Python dict: the old binding
for `k` is replaced. -/
def dictInsert {α : Type} (m : List (String × α)) (k : String) (v : α) :
    List (String × α) :=
  match m with
  | [] => [(k, v)]
  | p :: t => if p.1 = k then dictInsert t k v else p :: dictInsert t k v

/-- The Coordinator's mutable state: the three incident-keyed maps, the
remediation agent's `state_backups` keys, and the `stats` counters. -/
structure SysState where
  active_incidents : List (String × Incident)
  diagnoses : List (String × Diagnosis)
  results : List (String × RemediationResult)
  state_backups : List String
  incidents_detected : Nat
  incidents_resolved : Nat
  remediations_executed : Nat
  remediations_successful : Nat
  total_cost : Rat
deriving DecidableEq, Repr

/-- Coordinator configuration (`confidence_threshold` defaults to `0.85`,
`auto_remediation_enabled` to `True`) together with the remediation agent's
safety validator. -/
structure CoordConfig where
  confidence_threshold : Rat
  auto_remediation_enabled : Bool
  validator : SafetyValidator
deriving DecidableEq, Repr

/-- The external collaborators of one `handle_incident_workflow` run: the
diagnostic agent's diagnosis and plan, and the execution environment of
`execute_remediation`. -/
structure WorkflowEnv where
  diagnosis : Diagnosis
  plan : RemediationPlan
  exec : ExecEnv
deriving DecidableEq, Repr

/-- The outcome of one `handle_incident_workflow` run: its return value, the
incident with its final `status`, the new state, and the call trace of the
remediation execution (empty when the remediation gate stopped the run). -/
structure WorkflowOutcome where
  result : Option RemediationResult
  incident : Incident
  state : SysState
  exec_trace : List ExecEvent
deriving DecidableEq, Repr

/-- `Coordinator.handle_incident_workflow`: track the incident, diagnose,
gate on `auto_remediation_enabled ∧ confidence ≥ threshold`, then plan,
execute (with `auto_approve = not plan.requires_approval`) and record the
outcome.  The Python maps store references to the mutated `Incident` object,
so each return point re-inserts the incident with its final status to mirror
that aliasing. -/
def handle_incident_workflow (cfg : CoordConfig) (st0 : SysState) (inc0 : Incident)
    (env : WorkflowEnv) : WorkflowOutcome :=
  -- Track incident
  let st := { st0 with
    active_incidents := dictInsert st0.active_incidents inc0.id inc0
    incidents_detected := st0.incidents_detected + 1 }
  let inc := { inc0 with status := .diagnosing }
  -- Step 1: diagnose
  let diagnosis := env.diagnosis
  let st := { st with diagnoses := dictInsert st.diagnoses inc.id diagnosis }
  let inc := { inc with status := .diagnosed }
  -- Step 2: remediation gate
  let should_remediate :=
    cfg.auto_remediation_enabled && decide (cfg.confidence_threshold ≤ diagnosis.confidence)
  if !should_remediate then
    ⟨none, inc, { st with active_incidents := dictInsert st.active_incidents inc.id inc }, []⟩
  else
  -- Step 3: generate remediation plan
  let plan := env.plan
  let inc := { inc with status := .remediating }
  -- Step 4: execute remediation
  let eo := execute_remediation cfg.validator env.exec st.state_backups plan
    (!plan.requires_approval)
  let result := eo.result
  let st := { st with
    state_backups := eo.backups
    results := dictInsert st.results inc.id result
    remediations_executed := st.remediations_executed + 1 }
  let st :=
    if result.success then
      { st with remediations_successful := st.remediations_successful + 1 }
    else st
  let st :=
    match result.actual_cost with
    | some c => if c = 0 then st else { st with total_cost := st.total_cost + c }
    | none => st
  -- Step 5: final incident status
  let resolved := result.success && result.verification_passed
  let inc :=
    if resolved then { inc with status := .resolved } else { inc with status := .failed }
  let st :=
    if resolved then { st with incidents_resolved := st.incidents_resolved + 1 } else st
  ⟨some result, inc,
    { st with active_incidents := dictInsert st.active_incidents inc.id inc }, eo.trace⟩

/-- The body of one tick of `Coordinator.start_autonomous_loop`: every
incident the monitor reports is handed to `handle_incident_workflow`, in
order, with no filtering against `active_incidents`. -/
def loop_tick (cfg : CoordConfig) (st : SysState)
    (detected : List (Incident × WorkflowEnv)) : SysState :=
  detected.foldl (fun s p => (handle_incident_workflow cfg s p.1 p.2).state) st

/-! ## Theorems -/

/-- C5: a plan whose rollback descriptor is absent, malformed, or has an
empty step list fails validation with `"No valid rollback plan found"` among
the failed checks, and in general `is_safe` holds exactly when
`failed_checks` is empty. -/
theorem validator_rollback_gate (sv : SafetyValidator) (plan : RemediationPlan) :
    ((validate_plan sv plan).is_safe = (validate_plan sv plan).failed_checks.isEmpty) ∧
    (verify_rollback_possible plan = false →
      (validate_plan sv plan).is_safe = false ∧
      "No valid rollback plan found" ∈ (validate_plan sv plan).failed_checks) := by
  refine ⟨rfl, fun h => ?_⟩
  constructor
  · simp only [validate_plan, h]
    simp
  · simp only [validate_plan, h]
    simp

/-- A concrete plan with no rollback descriptor. -/
def c5_plan : RemediationPlan :=
  { id := "w5", diagnosis_id := "d5", incident_id := "i5",
    action := .clean_disk, action_description := "clean tmp files",
    terraform_config := none,
    parameters := [("droplet_id", .str "d-7"), ("path", .str "/tmp")],
    safety_checks := ["disk"], rollback_plan := none,
    requires_approval := false, estimated_cost := none, estimated_duration := none }

theorem validator_rollback_gate_witness :
    verify_rollback_possible c5_plan = false ∧
    (validate_plan defaultValidator c5_plan).is_safe = false ∧
    "No valid rollback plan found" ∈ (validate_plan defaultValidator c5_plan).failed_checks :=
  ⟨by with_unfolding_all decide,
    (validator_rollback_gate defaultValidator c5_plan).2 (by with_unfolding_all decide)⟩

/-- A plan that declares no estimated cost but whose action-keyed table cost
(1000 GB volume at 0.10/GB = 100.0) exceeds the 50.0 threshold. -/
def c2_plan : RemediationPlan :=
  { id := "w2", diagnosis_id := "d2", incident_id := "i2",
    action := .add_volume, action_description := "Add a 1TB volume",
    terraform_config := none,
    parameters := [("volume_name", .str "vol-1"), ("size_gb", .num 1000),
      ("region", .str "nyc3")],
    safety_checks := ["capacity"],
    rollback_plan := some ⟨true, true, ["detach and delete volume"]⟩,
    requires_approval := false, estimated_cost := none, estimated_duration := none }

/-- C2 counterexample: `estimate_cost` gives `total_first_month = 100 > 50`,
yet `validate_plan` leaves `requires_approval = false`, because the cost
check only runs when the plan declares an estimated cost. -/
theorem cost_gating_skipped_counterexample :
    defaultValidator.auto_approve_threshold <
      (estimate_cost c2_plan).total_first_month ∧
    c2_plan.estimated_cost = none ∧
    (validate_plan defaultValidator c2_plan).requires_approval = false := by
  with_unfolding_all decide

/-- C2 (amended): the cost gate applies only to plans that declare an
estimated cost.  For those, `estimate_cost` uses the declared value as the
monthly cost, and whenever `total_first_month` exceeds the validator's
auto-approve threshold the output has `requires_approval = true`, regardless
of the plan's own flag. -/
theorem cost_gating_forces_approval (sv : SafetyValidator) (plan : RemediationPlan)
    (hdecl : plan.estimated_cost.isSome = true)
    (hgt : sv.auto_approve_threshold < (estimate_cost plan).total_first_month) :
    (validate_plan sv plan).requires_approval = true := by
  obtain ⟨c, hc⟩ := Option.isSome_iff_exists.mp hdecl
  simp only [validate_plan, hc]
  simp [not_le.mpr hgt]

theorem cost_gating_forces_approval_witness :
    ({ c2_plan with estimated_cost := some 60 } : RemediationPlan).estimated_cost.isSome = true ∧
    defaultValidator.auto_approve_threshold <
      (estimate_cost { c2_plan with estimated_cost := some 60 }).total_first_month ∧
    (validate_plan defaultValidator
      { c2_plan with estimated_cost := some 60 }).requires_approval = true :=
  ⟨by with_unfolding_all decide, by with_unfolding_all decide,
    cost_gating_forces_approval defaultValidator { c2_plan with estimated_cost := some 60 }
      (by with_unfolding_all decide) (by with_unfolding_all decide)⟩

/-- C6: a destructive-keyword match (action name, config text, or a
force/destroy parameter key) forces `requires_approval = true` — overriding a
plan-declared `false` — and emits the warning, while contributing nothing to
`failed_checks`: when the four hard checks pass the plan is still safe. -/
theorem destructive_requires_approval (sv : SafetyValidator) (plan : RemediationPlan)
    (h : check_destructive_ops plan = true) :
    (validate_plan sv plan).requires_approval = true ∧
    ("Plan contains destructive operation: " ++ plan.action.value) ∈
      (validate_plan sv plan).warnings ∧
    (verify_rollback_possible plan = true → plan.safety_checks.isEmpty = false →
      missing_params plan = [] →
      (plan.terraform_config.getD "" ≠ "" →
        terraform_syntax_valid (plan.terraform_config.getD "") = true) →
      (validate_plan sv plan).is_safe = true) := by
  refine ⟨?_, ?_, ?_⟩
  · simp only [validate_plan, h]
    rcases plan.estimated_cost with _ | c
    · simp
    · simp only []
      split <;> simp
  · simp only [validate_plan, h]
    simp
  · intro h1 h4 h5 h6
    simp only [validate_plan, h1, h4, h5]
    by_cases htf : plan.terraform_config.getD "" = ""
    · simp [htf]
    · simp [htf, h6 htf]

/-- A plan with the destructive action name `delete_volume` is not in the
source's action enumeration; the concrete destructive witness therefore uses
a `force` parameter key, which the same check inspects. -/
def c6_plan : RemediationPlan :=
  { id := "w6", diagnosis_id := "d6", incident_id := "i6",
    action := .update_firewall, action_description := "Rewrite firewall rules",
    terraform_config := none,
    parameters := [("firewall_id", .str "fw-1"), ("rules", .str "allow 443"),
      ("force_update", .str "true")],
    safety_checks := ["fw-backup"],
    rollback_plan := some ⟨true, true, ["restore previous rules"]⟩,
    requires_approval := false, estimated_cost := none, estimated_duration := none }

theorem destructive_requires_approval_witness :
    check_destructive_ops c6_plan = true ∧
    c6_plan.requires_approval = false ∧
    (validate_plan defaultValidator c6_plan).requires_approval = true ∧
    ("Plan contains destructive operation: " ++ c6_plan.action.value) ∈
      (validate_plan defaultValidator c6_plan).warnings ∧
    (validate_plan defaultValidator c6_plan).is_safe = true :=
  ⟨by with_unfolding_all decide, by with_unfolding_all decide,
    (destructive_requires_approval defaultValidator c6_plan (by with_unfolding_all decide)).1,
    (destructive_requires_approval defaultValidator c6_plan (by with_unfolding_all decide)).2.1,
    (destructive_requires_approval defaultValidator c6_plan (by with_unfolding_all decide)).2.2
      (by with_unfolding_all decide) (by with_unfolding_all decide)
      (by with_unfolding_all decide) (by with_unfolding_all decide)⟩

/-- Shared reduction of the apply-failure branch of `execute_remediation`:
used by the rollback-on-apply-failure and missing-backup theorems. -/
theorem exec_apply_failure_outcome (sv : SafetyValidator) (env : ExecEnv)
    (backups : List String) (plan : RemediationPlan) (auto_approve : Bool)
    (h1 : env.terraform_config ≠ "") (h2 : env.tf_valid = true)
    (h3 : (validate_plan sv plan).is_safe = true)
    (h4 : ((validate_plan sv plan).requires_approval && !auto_approve) = false)
    (h5 : env.plan_success = true) (h6 : env.apply_success = false) :
    (execute_remediation sv env backups plan auto_approve).result.success = false ∧
    (execute_remediation sv env backups plan auto_approve).result.status =
      RemediationStatus.failed ∧
    (execute_remediation sv env backups plan auto_approve).result.rollback_executed =
      rollback (backup_state env backups plan) plan ∧
    (execute_remediation sv env backups plan auto_approve).result.error_message =
      some (env.apply_error.getD "Apply failed") ∧
    (execute_remediation sv env backups plan auto_approve).trace =
      [.generate_terraform, .validate_terraform, .safety_validation, .backup_state,
        .dry_run, .apply_changes,
        .rollback_attempt (rollback (backup_state env backups plan) plan)] := by
  simp [execute_remediation, create_failed_result, h1, h2, h3, h4, h5, h6]

/-- C7: when the adapter's apply reports failure on a reached apply step, the
result is a failure whose `rollback_executed` is the literal outcome of the
single rollback attempt, whose error message surfaces the adapter's, and
whose call trace ends with exactly one rollback attempt. -/
theorem apply_failure_triggers_rollback (sv : SafetyValidator) (env : ExecEnv)
    (backups : List String) (plan : RemediationPlan) (auto_approve : Bool)
    (h1 : env.terraform_config ≠ "") (h2 : env.tf_valid = true)
    (h3 : (validate_plan sv plan).is_safe = true)
    (h4 : ((validate_plan sv plan).requires_approval && !auto_approve) = false)
    (h5 : env.plan_success = true) (h6 : env.apply_success = false) :
    (execute_remediation sv env backups plan auto_approve).result.success = false ∧
    (execute_remediation sv env backups plan auto_approve).result.status =
      RemediationStatus.failed ∧
    (execute_remediation sv env backups plan auto_approve).result.rollback_executed =
      rollback (backup_state env backups plan) plan ∧
    (execute_remediation sv env backups plan auto_approve).result.error_message =
      some (env.apply_error.getD "Apply failed") ∧
    (execute_remediation sv env backups plan auto_approve).trace =
      [.generate_terraform, .validate_terraform, .safety_validation, .backup_state,
        .dry_run, .apply_changes,
        .rollback_attempt (rollback (backup_state env backups plan) plan)] :=
  exec_apply_failure_outcome sv env backups plan auto_approve h1 h2 h3 h4 h5 h6

/-- A safe, non-destructive resize plan with a well-formed rollback plan. -/
def c7_plan : RemediationPlan :=
  { id := "w7", diagnosis_id := "d7", incident_id := "i7",
    action := .resize_droplet, action_description := "Resize to s-2vcpu-2gb",
    terraform_config := none,
    parameters := [("droplet_id", .str "d-9"), ("new_size", .str "s-2vcpu-2gb")],
    safety_checks := ["snapshot"],
    rollback_plan := some ⟨true, true, ["resize back to s-1vcpu-1gb"]⟩,
    requires_approval := false, estimated_cost := some 12, estimated_duration := none }

/-- Environment for the apply-failure scenario: everything up to apply
succeeds, then apply reports failure. -/
def c7_env : ExecEnv :=
  { terraform_config := "resize config", tf_valid := true, tf_errors := [],
    plan_success := true, plan_output := "", resources_to_add := 0,
    resources_to_change := 1, resources_to_destroy := 0,
    apply_success := false, apply_error := some "quota exceeded",
    resources_created := 0, resources_updated := 0, resources_destroyed := 0,
    show_state_ok := true, verify_ok := true }

theorem apply_failure_triggers_rollback_witness :
    (validate_plan defaultValidator c7_plan).is_safe = true ∧
    (execute_remediation defaultValidator c7_env [] c7_plan true).result.success = false ∧
    (execute_remediation defaultValidator c7_env [] c7_plan true).result.rollback_executed =
      rollback (backup_state c7_env [] c7_plan) c7_plan ∧
    (execute_remediation defaultValidator c7_env [] c7_plan true).trace =
      [.generate_terraform, .validate_terraform, .safety_validation, .backup_state,
        .dry_run, .apply_changes,
        .rollback_attempt (rollback (backup_state c7_env [] c7_plan) c7_plan)] :=
  ⟨by with_unfolding_all decide,
    (apply_failure_triggers_rollback defaultValidator c7_env [] c7_plan true
      (by with_unfolding_all decide) (by with_unfolding_all decide)
      (by with_unfolding_all decide) (by with_unfolding_all decide)
      (by with_unfolding_all decide) (by with_unfolding_all decide)).1,
    (apply_failure_triggers_rollback defaultValidator c7_env [] c7_plan true
      (by with_unfolding_all decide) (by with_unfolding_all decide)
      (by with_unfolding_all decide) (by with_unfolding_all decide)
      (by with_unfolding_all decide) (by with_unfolding_all decide)).2.2.1,
    (apply_failure_triggers_rollback defaultValidator c7_env [] c7_plan true
      (by with_unfolding_all decide) (by with_unfolding_all decide)
      (by with_unfolding_all decide) (by with_unfolding_all decide)
      (by with_unfolding_all decide) (by with_unfolding_all decide)).2.2.2.2⟩

/-- C8: a safe plan that requires approval, executed without auto-approve,
yields a `PENDING` result (not `FAILED`) carrying the safety warnings, and
stops before backup, dry-run and apply: the state backups are untouched and
the call trace ends at the safety validation. -/
theorem approval_gate_returns_pending (sv : SafetyValidator) (env : ExecEnv)
    (backups : List String) (plan : RemediationPlan)
    (h1 : env.terraform_config ≠ "") (h2 : env.tf_valid = true)
    (h3 : (validate_plan sv plan).is_safe = true)
    (h4 : (validate_plan sv plan).requires_approval = true) :
    (execute_remediation sv env backups plan false).result.status =
      RemediationStatus.pending ∧
    (execute_remediation sv env backups plan false).result.status ≠
      RemediationStatus.failed ∧
    (execute_remediation sv env backups plan false).result.success = false ∧
    (execute_remediation sv env backups plan false).result.metadata =
      .pending_approval (validate_plan sv plan).passed_checks
        (validate_plan sv plan).warnings ∧
    (execute_remediation sv env backups plan false).backups = backups ∧
    (execute_remediation sv env backups plan false).trace =
      [.generate_terraform, .validate_terraform, .safety_validation] := by
  simp [execute_remediation, h1, h2, h3, h4]

/-- The approval-demanding but safe plan of the destructive scenario, with
the stock successful environment. -/
def c8_env : ExecEnv :=
  { terraform_config := "firewall config", tf_valid := true, tf_errors := [],
    plan_success := true, plan_output := "", resources_to_add := 0,
    resources_to_change := 1, resources_to_destroy := 0,
    apply_success := true, apply_error := none,
    resources_created := 0, resources_updated := 1, resources_destroyed := 0,
    show_state_ok := true, verify_ok := true }

theorem approval_gate_returns_pending_witness :
    (validate_plan defaultValidator c6_plan).is_safe = true ∧
    (validate_plan defaultValidator c6_plan).requires_approval = true ∧
    (execute_remediation defaultValidator c8_env ["other-plan"] c6_plan false).result.status =
      RemediationStatus.pending ∧
    (execute_remediation defaultValidator c8_env ["other-plan"] c6_plan false).result.metadata =
      .pending_approval (validate_plan defaultValidator c6_plan).passed_checks
        (validate_plan defaultValidator c6_plan).warnings ∧
    (execute_remediation defaultValidator c8_env ["other-plan"] c6_plan false).backups =
      ["other-plan"] ∧
    (execute_remediation defaultValidator c8_env ["other-plan"] c6_plan false).trace =
      [.generate_terraform, .validate_terraform, .safety_validation] :=
  ⟨by with_unfolding_all decide, by with_unfolding_all decide,
    (approval_gate_returns_pending defaultValidator c8_env ["other-plan"] c6_plan
      (by with_unfolding_all decide) (by with_unfolding_all decide)
      (by with_unfolding_all decide) (by with_unfolding_all decide)).1,
    (approval_gate_returns_pending defaultValidator c8_env ["other-plan"] c6_plan
      (by with_unfolding_all decide) (by with_unfolding_all decide)
      (by with_unfolding_all decide) (by with_unfolding_all decide)).2.2.2.1,
    (approval_gate_returns_pending defaultValidator c8_env ["other-plan"] c6_plan
      (by with_unfolding_all decide) (by with_unfolding_all decide)
      (by with_unfolding_all decide) (by with_unfolding_all decide)).2.2.2.2.1,
    (approval_gate_returns_pending defaultValidator c8_env ["other-plan"] c6_plan
      (by with_unfolding_all decide) (by with_unfolding_all decide)
      (by with_unfolding_all decide) (by with_unfolding_all decide)).2.2.2.2.2⟩

/-- Environment for the verification-failure scenario: apply succeeds and
the post-fix verification reports failure. -/
def c3_env : ExecEnv :=
  { terraform_config := "resize config", tf_valid := true, tf_errors := [],
    plan_success := true, plan_output := "", resources_to_add := 0,
    resources_to_change := 1, resources_to_destroy := 0,
    apply_success := true, apply_error := none,
    resources_created := 0, resources_updated := 1, resources_destroyed := 0,
    show_state_ok := true, verify_ok := false }

/-- C3 counterexample: with apply succeeded and verification failed, the
returned result is NOT marked failed — its `success` flag is `true` and its
status is `VERIFYING`, not `FAILED`. -/
theorem verification_failure_not_failed_counterexample :
    (execute_remediation defaultValidator c3_env [] c7_plan true).result.verification_passed
      = false ∧
    (execute_remediation defaultValidator c3_env [] c7_plan true).result.success = true ∧
    (execute_remediation defaultValidator c3_env [] c7_plan true).result.status ≠
      RemediationStatus.failed := by
  with_unfolding_all decide

/-- C3 (amended): when apply succeeds but verification reports failure, the
result records `verification_passed = false` with status `VERIFYING` rather
than `SUCCESS`, its `success` flag remains `true`, and no rollback is
attempted (`rollback_executed = false` and no rollback event in the trace). -/
theorem verification_failure_marks_verifying (sv : SafetyValidator) (env : ExecEnv)
    (backups : List String) (plan : RemediationPlan) (auto_approve : Bool)
    (h1 : env.terraform_config ≠ "") (h2 : env.tf_valid = true)
    (h3 : (validate_plan sv plan).is_safe = true)
    (h4 : ((validate_plan sv plan).requires_approval && !auto_approve) = false)
    (h5 : env.plan_success = true) (h6 : env.apply_success = true)
    (h7 : env.verify_ok = false) :
    (execute_remediation sv env backups plan auto_approve).result.status =
      RemediationStatus.verifying ∧
    (execute_remediation sv env backups plan auto_approve).result.success = true ∧
    (execute_remediation sv env backups plan auto_approve).result.verification_passed
      = false ∧
    (execute_remediation sv env backups plan auto_approve).result.rollback_executed
      = false ∧
    (execute_remediation sv env backups plan auto_approve).trace =
      [.generate_terraform, .validate_terraform, .safety_validation, .backup_state,
        .dry_run, .apply_changes, .verify_fix false, .knowledge_base_update] := by
  simp [execute_remediation, h1, h2, h3, h4, h5, h6, h7]

theorem verification_failure_marks_verifying_witness :
    c3_env.verify_ok = false ∧
    (execute_remediation defaultValidator c3_env [] c7_plan true).result.status =
      RemediationStatus.verifying ∧
    (execute_remediation defaultValidator c3_env [] c7_plan true).trace =
      [.generate_terraform, .validate_terraform, .safety_validation, .backup_state,
        .dry_run, .apply_changes, .verify_fix false, .knowledge_base_update] :=
  ⟨by with_unfolding_all decide,
    (verification_failure_marks_verifying defaultValidator c3_env [] c7_plan true
      (by with_unfolding_all decide) (by with_unfolding_all decide)
      (by with_unfolding_all decide) (by with_unfolding_all decide)
      (by with_unfolding_all decide) (by with_unfolding_all decide)
      (by with_unfolding_all decide)).1,
    (verification_failure_marks_verifying defaultValidator c3_env [] c7_plan true
      (by with_unfolding_all decide) (by with_unfolding_all decide)
      (by with_unfolding_all decide) (by with_unfolding_all decide)
      (by with_unfolding_all decide) (by with_unfolding_all decide)
      (by with_unfolding_all decide)).2.2.2.2⟩

/-- C10: `rollback` fails whenever no snapshot is stored under the plan id;
and because `_backup_state` swallows its own failure, an apply failure after
a failed backup yields `rollback_executed = false` even for a plan declaring
a well-formed, non-empty rollback plan. -/
theorem missing_backup_means_rollback_false (sv : SafetyValidator) (env : ExecEnv)
    (backups : List String) (plan : RemediationPlan) (auto_approve : Bool)
    (hb : backups.contains plan.id = false) (hss : env.show_state_ok = false)
    (_hrb : verify_rollback_possible plan = true)
    (h1 : env.terraform_config ≠ "") (h2 : env.tf_valid = true)
    (h3 : (validate_plan sv plan).is_safe = true)
    (h4 : ((validate_plan sv plan).requires_approval && !auto_approve) = false)
    (h5 : env.plan_success = true) (h6 : env.apply_success = false) :
    rollback backups plan = false ∧
    (execute_remediation sv env backups plan auto_approve).result.rollback_executed
      = false ∧
    (execute_remediation sv env backups plan auto_approve).result.success = false := by
  have hroll : rollback backups plan = false := by
    unfold rollback
    exact hb
  have hbs : backup_state env backups plan = backups := by simp [backup_state, hss]
  refine ⟨hroll, ?_, ?_⟩
  · have := (exec_apply_failure_outcome sv env backups plan auto_approve
      h1 h2 h3 h4 h5 h6).2.2.1
    rw [this, hbs]
    exact hroll
  · exact (exec_apply_failure_outcome sv env backups plan auto_approve
      h1 h2 h3 h4 h5 h6).1



/-- A failing-backup witness: apply fails after `show_state` failed, with a
well-formed rollback plan declared. -/
def c10_env : ExecEnv :=
  { terraform_config := "resize config", tf_valid := true, tf_errors := [],
    plan_success := true, plan_output := "", resources_to_add := 0,
    resources_to_change := 1, resources_to_destroy := 0,
    apply_success := false, apply_error := some "api timeout",
    resources_created := 0, resources_updated := 0, resources_destroyed := 0,
    show_state_ok := false, verify_ok := true }

theorem missing_backup_means_rollback_false_witness :
    verify_rollback_possible c7_plan = true ∧
    c10_env.show_state_ok = false ∧
    rollback [] c7_plan = false ∧
    (execute_remediation defaultValidator c10_env [] c7_plan true).result.rollback_executed
      = false :=
  ⟨by with_unfolding_all decide, by with_unfolding_all decide,
    (missing_backup_means_rollback_false defaultValidator c10_env [] c7_plan true
      (by with_unfolding_all decide) (by with_unfolding_all decide)
      (by with_unfolding_all decide) (by with_unfolding_all decide)
      (by with_unfolding_all decide) (by with_unfolding_all decide)
      (by with_unfolding_all decide) (by with_unfolding_all decide)
      (by with_unfolding_all decide)).1,
    (missing_backup_means_rollback_false defaultValidator c10_env [] c7_plan true
      (by with_unfolding_all decide) (by with_unfolding_all decide)
      (by with_unfolding_all decide) (by with_unfolding_all decide)
      (by with_unfolding_all decide) (by with_unfolding_all decide)
      (by with_unfolding_all decide) (by with_unfolding_all decide)
      (by with_unfolding_all decide)).2.1⟩

/-- C4: when the diagnosis confidence is below the threshold or
auto-remediation is disabled, the workflow stops after diagnosis: it returns
no result, leaves the incident `DIAGNOSED`, generates no plan (no execution
events, `results` untouched) and leaves `remediations_executed` unchanged. -/
theorem low_confidence_leaves_diagnosed (cfg : CoordConfig) (st : SysState)
    (inc : Incident) (env : WorkflowEnv)
    (h : cfg.auto_remediation_enabled = false ∨
      env.diagnosis.confidence < cfg.confidence_threshold) :
    (handle_incident_workflow cfg st inc env).result = none ∧
    (handle_incident_workflow cfg st inc env).incident.status =
      IncidentStatus.diagnosed ∧
    (handle_incident_workflow cfg st inc env).state.remediations_executed =
      st.remediations_executed ∧
    (handle_incident_workflow cfg st inc env).state.results = st.results ∧
    (handle_incident_workflow cfg st inc env).exec_trace = [] := by
  have hg : (cfg.auto_remediation_enabled &&
      decide (cfg.confidence_threshold ≤ env.diagnosis.confidence)) = false := by
    rcases h with h | h
    · simp [h]
    · simp [decide_eq_false (not_le.mpr h)]
  simp [handle_incident_workflow, hg]

/-- The spec scenario incident (cpu_usage 95 over threshold 80). -/
def c4_incident : Incident :=
  { id := "inc-4", resource_id := "droplet-67890", resource_name := "web-app",
    metric := "cpu_usage", current_value := 95, threshold_value := 80,
    severity := "high", status := .detected,
    description := "CPU usage exceeded threshold on web-app droplet" }

/-- The spec scenario diagnosis with confidence 0.6 below threshold 0.85. -/
def c4_diagnosis : Diagnosis :=
  { id := "diag-4", incident_id := "inc-4", root_cause := "undersized droplet",
    confidence := 0.6, recommendations := ["resize droplet"],
    estimated_cost := some 12, estimated_duration := some 90 }

/-- Default coordinator configuration (threshold 0.85, auto-remediation on). -/
def defaultConfig : CoordConfig :=
  { confidence_threshold := 0.85, auto_remediation_enabled := true,
    validator := defaultValidator }

/-- The empty coordinator state. -/
def emptyState : SysState :=
  { active_incidents := [], diagnoses := [], results := [], state_backups := [],
    incidents_detected := 0, incidents_resolved := 0, remediations_executed := 0,
    remediations_successful := 0, total_cost := 0 }

/-- A fully successful execution environment. -/
def okEnv : ExecEnv :=
  { terraform_config := "generated config", tf_valid := true, tf_errors := [],
    plan_success := true, plan_output := "", resources_to_add := 0,
    resources_to_change := 1, resources_to_destroy := 0,
    apply_success := true, apply_error := none,
    resources_created := 0, resources_updated := 1, resources_destroyed := 0,
    show_state_ok := true, verify_ok := true }

theorem low_confidence_leaves_diagnosed_witness :
    c4_diagnosis.confidence < defaultConfig.confidence_threshold ∧
    (handle_incident_workflow defaultConfig emptyState c4_incident
      ⟨c4_diagnosis, c7_plan, okEnv⟩).result = none ∧
    (handle_incident_workflow defaultConfig emptyState c4_incident
      ⟨c4_diagnosis, c7_plan, okEnv⟩).incident.status = IncidentStatus.diagnosed ∧
    (handle_incident_workflow defaultConfig emptyState c4_incident
      ⟨c4_diagnosis, c7_plan, okEnv⟩).state.remediations_executed =
      emptyState.remediations_executed :=
  ⟨by with_unfolding_all decide,
    (low_confidence_leaves_diagnosed defaultConfig emptyState c4_incident
      ⟨c4_diagnosis, c7_plan, okEnv⟩ (Or.inr (by with_unfolding_all decide))).1,
    (low_confidence_leaves_diagnosed defaultConfig emptyState c4_incident
      ⟨c4_diagnosis, c7_plan, okEnv⟩ (Or.inr (by with_unfolding_all decide))).2.1,
    (low_confidence_leaves_diagnosed defaultConfig emptyState c4_incident
      ⟨c4_diagnosis, c7_plan, okEnv⟩ (Or.inr (by with_unfolding_all decide))).2.2.1⟩

/-- Looking up the just-assigned key of a dict assignment. -/
theorem lookup_dictInsert {α : Type} (m : List (String × α)) (k : String) (v : α) :
    List.lookup k (dictInsert m k v) = some v := by
  induction m with
  | nil => simp [dictInsert, List.lookup]
  | cons p t ih =>
      by_cases h : p.1 = k
      · simpa [dictInsert, h] using ih
      · have hbeq : (k == p.1) = false := by
          simp [BEq.beq]
          exact fun hk => h hk.symm
        simp [dictInsert, h, List.lookup, hbeq, ih]

/-- Whatever branch the workflow takes, it increments `incidents_detected`
and stores the diagnosis under the incident id. -/
theorem workflow_counts_and_diagnoses (cfg : CoordConfig) (st : SysState)
    (inc : Incident) (env : WorkflowEnv) :
    (handle_incident_workflow cfg st inc env).state.incidents_detected =
      st.incidents_detected + 1 ∧
    (handle_incident_workflow cfg st inc env).state.diagnoses =
      dictInsert st.diagnoses inc.id env.diagnosis := by
  unfold handle_incident_workflow
  constructor <;>
    (dsimp only []
     split
     · rfl
     · dsimp only []
       repeat' split
       all_goals rfl)

/-- An incident already present in `active_incidents`. -/
def c9_incident : Incident :=
  { id := "inc-9", resource_id := "droplet-1", resource_name := "api",
    metric := "memory_usage", current_value := 97, threshold_value := 85,
    severity := "critical", status := .diagnosed,
    description := "Memory usage exceeded threshold" }

/-- A state that already tracks `c9_incident`. -/
def c9_state : SysState :=
  { emptyState with active_incidents := [("inc-9", c9_incident)] }

/-- A confident diagnosis for the tracked incident. -/
def c9_diagnosis : Diagnosis :=
  { id := "diag-9", incident_id := "inc-9", root_cause := "memory leak",
    confidence := 0.9, recommendations := ["resize droplet"],
    estimated_cost := some 12, estimated_duration := some 90 }

/-- C9 counterexample: an incident whose id is already tracked in
`active_incidents` is nevertheless re-run by the loop body — the workflow
executes a remediation and `incidents_detected` is re-incremented. -/
theorem loop_reruns_tracked_incident_counterexample :
    List.lookup c9_incident.id c9_state.active_incidents = some c9_incident ∧
    (loop_tick defaultConfig c9_state
      [(c9_incident, ⟨c9_diagnosis, c7_plan, okEnv⟩)]).incidents_detected =
      c9_state.incidents_detected + 1 ∧
    (loop_tick defaultConfig c9_state
      [(c9_incident, ⟨c9_diagnosis, c7_plan, okEnv⟩)]).remediations_executed =
      c9_state.remediations_executed + 1 := by
  with_unfolding_all decide

/-- C9 (amended): the loop body runs the workflow for every detected
incident with no tracking filter — even one whose id is already present in
`active_incidents` is re-run (its diagnosis is re-stored) and re-counted in
`incidents_detected`. -/
theorem loop_tick_processes_tracked_incident (cfg : CoordConfig) (st : SysState)
    (inc : Incident) (env : WorkflowEnv)
    (_h : (List.lookup inc.id st.active_incidents).isSome = true) :
    (loop_tick cfg st [(inc, env)]).incidents_detected = st.incidents_detected + 1 ∧
    List.lookup inc.id (loop_tick cfg st [(inc, env)]).diagnoses = some env.diagnosis := by
  have hw := workflow_counts_and_diagnoses cfg st inc env
  have hl : loop_tick cfg st [(inc, env)] = (handle_incident_workflow cfg st inc env).state := by
    simp [loop_tick]
  rw [hl]
  exact ⟨hw.1, by rw [hw.2]; exact lookup_dictInsert st.diagnoses inc.id env.diagnosis⟩

theorem loop_tick_processes_tracked_incident_witness :
    (List.lookup c9_incident.id c9_state.active_incidents).isSome = true ∧
    (loop_tick defaultConfig c9_state
      [(c9_incident, ⟨c9_diagnosis, c7_plan, okEnv⟩)]).incidents_detected =
      c9_state.incidents_detected + 1 ∧
    List.lookup c9_incident.id (loop_tick defaultConfig c9_state
      [(c9_incident, ⟨c9_diagnosis, c7_plan, okEnv⟩)]).diagnoses = some c9_diagnosis :=
  ⟨by with_unfolding_all decide,
    (loop_tick_processes_tracked_incident defaultConfig c9_state c9_incident
      ⟨c9_diagnosis, c7_plan, okEnv⟩ (by with_unfolding_all decide)).1,
    (loop_tick_processes_tracked_incident defaultConfig c9_state c9_incident
      ⟨c9_diagnosis, c7_plan, okEnv⟩ (by with_unfolding_all decide)).2⟩

/-- A plan the validator forces to require approval (a `force` parameter key
matches the destructive check) although the plan itself declares
`requires_approval = false`; every hard check passes, so it is safe. -/
def c1_plan : RemediationPlan :=
  { id := "plan-1", diagnosis_id := "diag-1", incident_id := "inc-1",
    action := .restart_service, action_description := "Restart nginx",
    terraform_config := none,
    parameters := [("droplet_id", .str "d-42"), ("service_name", .str "nginx"),
      ("force_restart", .str "yes")],
    safety_checks := ["service-health"],
    rollback_plan := some ⟨true, true, ["start nginx"]⟩,
    requires_approval := false, estimated_cost := none, estimated_duration := none }

/-- The incident and diagnosis driving `c1_plan` through the workflow. -/
def c1_incident : Incident :=
  { id := "inc-1", resource_id := "droplet-42", resource_name := "web",
    metric := "error_rate", current_value := 12, threshold_value := 5,
    severity := "high", status := .detected,
    description := "Error rate exceeded threshold" }

/-- A confident diagnosis, clearing the 0.85 gate. -/
def c1_diagnosis : Diagnosis :=
  { id := "diag-1", incident_id := "inc-1", root_cause := "hung worker",
    confidence := 0.9, recommendations := ["restart service"],
    estimated_cost := none, estimated_duration := some 60 }

/-- C1: the safety invariant is violated.  The validator forces
`requires_approval = true` for `c1_plan` (its own flag is `false`), yet
`handle_incident_workflow` passes `auto_approve = not plan.requires_approval
= true` into `execute_remediation`, so the plan is applied — the apply event
occurs with no approval and the result is `SUCCESS`, not `PENDING`. -/
theorem forced_approval_bypassed_bug :
    (validate_plan defaultConfig.validator c1_plan).requires_approval = true ∧
    c1_plan.requires_approval = false ∧
    (handle_incident_workflow defaultConfig emptyState c1_incident
      ⟨c1_diagnosis, c1_plan, okEnv⟩).exec_trace.contains ExecEvent.apply_changes = true ∧
    (handle_incident_workflow defaultConfig emptyState c1_incident
      ⟨c1_diagnosis, c1_plan, okEnv⟩).exec_trace.contains
        (ExecEvent.rollback_attempt true) = false ∧
    (handle_incident_workflow defaultConfig emptyState c1_incident
      ⟨c1_diagnosis, c1_plan, okEnv⟩).result.map RemediationResult.status =
      some RemediationStatus.success := by
  with_unfolding_all decide
